import Mathlib

/-!
Verification of the gas-cartridge refill application (`app.py`) against its
natural-language specification.

The two database tables (`cartridge_types`, `transactions`) are embedded as
lists of records inside a `Store`, with the SERIAL primary keys modelled by
explicit next-id counters.  The REAL columns are embedded as exact rationals
(the spec treats the arithmetic as exact: "no rounding beyond what display
formatting applies").  Each Python function that touches the database becomes
a pure function on `Store`; `psycopg2` raising on a placeholder/parameter
mismatch is modelled by an explicit arity check.
-/

namespace Rendonnee

/-- Row of the `cartridge_types` table (app.py, `init_db`). -/
structure CartridgeType where
  id : Nat
  name : String
  full_gas_mass : ℚ
  empty_mass : ℚ
  color : String
  butane : ℚ
  propane : ℚ
deriving Repr, DecidableEq

/-- Row of the `transactions` table (app.py, `init_db`).  `client_name` is the
only nullable column. -/
structure Transaction where
  id : Nat
  date : String
  cartridge_type_id : Nat
  color : String
  measured_weight : ℚ
  gas_mass : ℚ
  missing_gas : ℚ
  butane_to_add : ℚ
  propane_to_add : ℚ
  client_name : Option String
deriving Repr, DecidableEq

/-- The relational store: both tables plus the SERIAL counters. -/
structure Store where
  cartridge_types : List CartridgeType
  transactions : List Transaction
  next_type_id : Nat
  next_transaction_id : Nat
deriving Repr, DecidableEq

/-- Freshly initialised database (`init_db` on an empty database: both tables
empty, SERIAL counters starting at 1). -/
def emptyStore : Store := ⟨[], [], 1, 1⟩

/-- Error taxonomy of the spec (section 7). -/
inductive AppError where
  | validationError (msg : String)
  | notFoundError (msg : String)
  | storageError (msg : String)
deriving Repr, DecidableEq

/-- One row of the `default_types` literal in `add_default_cartridge_types`:
(name, full_gas_mass, empty_mass, color, butane, propane). -/
def TypeRow : Type := String × ℚ × ℚ × String × ℚ × ℚ

/-- An `INSERT INTO cartridge_types (name, full_gas_mass, empty_mass, color,
butane, propane)`: the SERIAL column assigns the next id. -/
def insert_cartridge_type_row (s : Store) (row : TypeRow) : Store :=
  { s with
    cartridge_types := s.cartridge_types ++
      [⟨s.next_type_id, row.1, row.2.1, row.2.2.1, row.2.2.2.1,
        row.2.2.2.2.1, row.2.2.2.2.2⟩],
    next_type_id := s.next_type_id + 1 }

/-- The `default_types` list of app.py lines 58-64. -/
def default_types : List TypeRow :=
  [("Type A", 400.0, 200.0, "Bleu", 0.70, 0.30),
   ("Type B", 500.0, 250.0, "Rouge", 0.60, 0.40),
   ("Type C", 450.0, 220.0, "Bleu", 0.70, 0.30),
   ("Type D", 600.0, 300.0, "Rouge", 0.60, 0.40),
   ("Type E", 550.0, 280.0, "Bleu", 0.70, 0.30)]

/-- Embedding of `add_default_cartridge_types` (app.py lines 52-70): counts
the rows of `cartridge_types` and inserts the five defaults only when the
count is 0. -/
def add_default_cartridge_types (s : Store) : Store :=
  if s.cartridge_types.length = 0 then
    default_types.foldl insert_cartridge_type_row s
  else s

/-- Embedding of `get_cartridge_types` (app.py lines 72-78):
`SELECT * FROM cartridge_types`. -/
def get_cartridge_types (s : Store) : List CartridgeType :=
  s.cartridge_types

/-- Embedding of `add_cartridge_type` (app.py lines 80-88): a single-row
INSERT with no validation of its own. -/
def add_cartridge_type (s : Store) (name : String) (full_gas_mass empty_mass : ℚ)
    (color : String) (butane propane : ℚ) : Store :=
  insert_cartridge_type_row s (name, full_gas_mass, empty_mass, color, butane, propane)

/-- The "Ajouter" form handler (app.py lines 258-263): inserts only when the
submitted name is truthy (non-empty), otherwise reports an error and inserts
nothing.  Returns the resulting store together with the outcome. -/
def submit_add_type (s : Store) (new_name : String) (full_gas_mass empty_mass : ℚ)
    (color : String) (butane propane : ℚ) : Store × Except AppError Unit :=
  if new_name ≠ "" then
    (add_cartridge_type s new_name full_gas_mass empty_mass color butane propane, .ok ())
  else
    (s, .error (.validationError ("Veuillez entrer un nom pour le type de cartouche.")))

/-- Embedding of `update_cartridge_type` (app.py lines 90-98):
`UPDATE cartridge_types SET … WHERE id=%s`.  A WHERE clause matching no row
updates nothing and raises no error, so the function is total on `Store`. -/
def update_cartridge_type (s : Store) (id : Nat) (name : String)
    (full_gas_mass empty_mass : ℚ) (color : String) (butane propane : ℚ) : Store :=
  { s with
    cartridge_types := s.cartridge_types.map (fun ct =>
      if ct.id = id then
        { ct with
          name := name
          full_gas_mass := full_gas_mass
          empty_mass := empty_mass
          color := color
          butane := butane
          propane := propane }
      else ct) }

/-- Embedding of `delete_cartridge_type` (app.py lines 100-103):
`DELETE FROM cartridge_types WHERE id=%s`. -/
def delete_cartridge_type (s : Store) (type_id : Nat) : Store :=
  { s with cartridge_types := s.cartridge_types.filter (fun ct => ct.id ≠ type_id) }

/-- Number of `%s` placeholders in the VALUES clause of the INSERT statement
of `add_transaction` (app.py line 113: `VALUES (%s, %s, %s, %s, %s, %s)`). -/
def add_transaction_placeholders : Nat := 6

/-- Number of parameters passed to `c.execute` in `add_transaction` (app.py
line 114: the 9-tuple `(date_str, cartridge_type_id, color, measured_weight,
gas_mass, missing_gas, butane_to_add, propane_to_add, client_name)`). -/
def add_transaction_params : Nat := 9

/-- Client-side parameter interpolation of `psycopg2` succeeds only when the
number of `%s` placeholders equals the number of supplied parameters;
otherwise `execute` raises before anything reaches the database. -/
def paramsMatch (placeholders params : Nat) : Bool := placeholders == params

/-- Embedding of `add_transaction` (app.py lines 106-115).  The INSERT
statement names nine target columns but its VALUES clause holds six
placeholders while nine parameters are supplied, so the `execute` call raises
and no row is inserted.  The creation timestamp (`datetime.now()` in the
source) is passed in as `date_str`. -/
def add_transaction (s : Store) (date_str : String) (cartridge_type_id : Nat)
    (color : String) (measured_weight gas_mass missing_gas butane_to_add
    propane_to_add : ℚ) (client_name : Option String) : Except AppError Store :=
  if paramsMatch add_transaction_placeholders add_transaction_params then
    .ok { s with
      transactions := s.transactions ++
        [⟨s.next_transaction_id, date_str, cartridge_type_id, color,
          measured_weight, gas_mass, missing_gas, butane_to_add,
          propane_to_add, client_name⟩],
      next_transaction_id := s.next_transaction_id + 1 }
  else
    .error (.storageError ("not all arguments converted during string formatting"))

/-- One row of the DataFrame returned by `get_transactions`:
(ID, Date, cartridge name, color, measured weight, gas mass, missing gas,
butane to add, propane to add, client name). -/
structure TransactionView where
  id : Nat
  date : String
  cartridge_name : String
  color : String
  measured_weight : ℚ
  gas_mass : ℚ
  missing_gas : ℚ
  butane_to_add : ℚ
  propane_to_add : ℚ
  client_name : Option String
deriving Repr, DecidableEq

/-- String comparison used for `ORDER BY t.date DESC`: `a` comes no later
than `b` in descending order when `a` is lexicographically at least `b`. -/
def dateDescLe (a b : String) : Bool := compare a b ≠ Ordering.lt

/-- Insertion step of the sort implementing `ORDER BY t.date DESC`. -/
def insertByDateDesc (t : TransactionView) : List TransactionView → List TransactionView
  | [] => [t]
  | h :: rest =>
      if dateDescLe t.date h.date then t :: h :: rest
      else h :: insertByDateDesc t rest

/-- Stable sort by date, most recent first (`ORDER BY t.date DESC`). -/
def sortByDateDesc (l : List TransactionView) : List TransactionView :=
  l.foldr insertByDateDesc []

/-- Embedding of `get_transactions` (app.py lines 117-133): an inner JOIN of
`transactions` with `cartridge_types` on `t.cartridge_type_id = ct.id`,
ordered by date descending.  A transaction whose type id matches no catalog
row contributes no output row. -/
def get_transactions (s : Store) : List TransactionView :=
  sortByDateDesc <| s.transactions.flatMap (fun t =>
    (s.cartridge_types.filter (fun ct => ct.id == t.cartridge_type_id)).map
      (fun ct =>
        ⟨t.id, t.date, ct.name, t.color, t.measured_weight, t.gas_mass,
         t.missing_gas, t.butane_to_add, t.propane_to_add, t.client_name⟩))

/-- Embedding of `delete_transaction` (app.py lines 135-139). -/
def delete_transaction (s : Store) (transaction_id : Nat) : Store :=
  { s with transactions := s.transactions.filter (fun t => t.id ≠ transaction_id) }

/-- Embedding of `update_transaction` (app.py lines 141-153):
`UPDATE transactions SET date, measured_weight, gas_mass, missing_gas,
butane_to_add, propane_to_add, client_name WHERE id=%s`.  The columns
`cartridge_type_id` and `color` are not in the SET list; a missing id matches
no row and raises no error. -/
def update_transaction (s : Store) (transaction_id : Nat) (new_date : String)
    (new_measured_weight new_gas_mass new_missing_gas new_butane_to_add
    new_propane_to_add : ℚ) (new_client_name : String) : Store :=
  { s with
    transactions := s.transactions.map (fun t =>
      if t.id = transaction_id then
        { t with
          date := new_date
          measured_weight := new_measured_weight
          gas_mass := new_gas_mass
          missing_gas := new_missing_gas
          butane_to_add := new_butane_to_add
          propane_to_add := new_propane_to_add
          client_name := some new_client_name }
      else t) }

/-- Output bundle of the fill computation. -/
structure FillResult where
  gas_mass : ℚ
  missing_gas : ℚ
  butane_to_add : ℚ
  propane_to_add : ℚ
deriving Repr, DecidableEq

/-- The fill computation inlined in `main` (app.py lines 192-205):
`gas_mass = measured_weight - empty_mass`; if negative the operation is
rejected; otherwise `missing_gas = full_gas_mass - gas_mass` clamped at 0,
and the butane/propane amounts are `missing_gas` times the respective
ratio. -/
def computeFill (ct : CartridgeType) (measured_weight : ℚ) :
    Except AppError FillResult :=
  let gas_mass := measured_weight - ct.empty_mass
  if gas_mass < 0 then
    .error (.validationError
      ("Le poids mesuré est inférieur à la masse du contenant vide."))
  else
    let missing_gas0 := ct.full_gas_mass - gas_mass
    let missing_gas := if missing_gas0 > 0 then missing_gas0 else 0
    let butane_to_add := missing_gas * ct.butane
    let propane_to_add := missing_gas * ct.propane
    .ok ⟨gas_mass, missing_gas, butane_to_add, propane_to_add⟩

/-- The "Calculer et Enregistrer" button handler (app.py lines 191-227):
computes the fill for the selected type and, on success, calls
`add_transaction` with the id and color snapshot of the type.  Returns the
resulting store together with the outcome; on any error the store is the
input store (the rejection happens before any row is written). -/
def calculer_et_enregistrer (s : Store) (ct : CartridgeType) (measured_weight : ℚ)
    (client_name : String) (now : String) : Store × Except AppError Unit :=
  match computeFill ct measured_weight with
  | .error e => (s, .error e)
  | .ok r =>
      match add_transaction s now ct.id ct.color measured_weight r.gas_mass
          r.missing_gas r.butane_to_add r.propane_to_add (some client_name) with
      | .error e => (s, .error e)
      | .ok s2 => (s2, .ok ())

/-- The catalog right after first startup: `init_db` then
`add_default_cartridge_types` on an empty database. -/
def seededStore : Store := add_default_cartridge_types emptyStore

/-- Concrete instance of the scenario type of the spec: fullGasMass 400,
emptyMass 200, butane 0.70, propane 0.30 — the seeded "Type A". -/
def typeA : CartridgeType := ⟨1, "Type A", 400.0, 200.0, "Bleu", 0.70, 0.30⟩

/-- Demo transaction referencing seeded type 1. -/
def demoTransaction1 : Transaction :=
  ⟨1, "2025-01-01 10:00:00", 1, "Bleu", 250, 50, 350, 245, 105, some "Alice"⟩

/-- Demo transaction referencing seeded type 2. -/
def demoTransaction2 : Transaction :=
  ⟨2, "2025-01-02 10:00:00", 2, "Rouge", 300, 50, 450, 270, 180, none⟩

/-- Demo transaction whose `cartridge_type_id` 99 matches no catalog row. -/
def danglingTransaction : Transaction :=
  ⟨3, "2025-01-03 10:00:00", 99, "Bleu", 250, 50, 350, 245, 105, none⟩

/-- Seeded catalog with two ordinary transactions. -/
def demoStore : Store :=
  ⟨(add_default_cartridge_types emptyStore).cartridge_types,
   [demoTransaction1, demoTransaction2], 6, 3⟩

/-- Seeded catalog with one ordinary and one dangling transaction. -/
def demoStoreDangling : Store :=
  ⟨(add_default_cartridge_types emptyStore).cartridge_types,
   [demoTransaction1, danglingTransaction], 6, 4⟩

/-- A row-wise UPDATE whose WHERE clause matches no row leaves the table
unchanged. -/
theorem map_untouched {α : Type} (l : List α) (f : α → α)
    (h : ∀ a ∈ l, f a = a) : l.map f = l := by
  induction l with
  | nil => rfl
  | cons x xs ih =>
      rw [List.map_cons, h x (List.mem_cons_self x xs),
        ih (fun a ha => h a (List.mem_cons_of_mem x ha))]

/-- Membership through one insertion step of the date sort. -/
theorem mem_insertByDateDesc (x t : TransactionView) (l : List TransactionView) :
    x ∈ insertByDateDesc t l ↔ x = t ∨ x ∈ l := by
  induction l with
  | nil => simp [insertByDateDesc]
  | cons a rest ih =>
      simp only [insertByDateDesc]
      split
      · simp [List.mem_cons]
      · simp only [List.mem_cons, ih]
        tauto

/-- The date sort permutes its input, so membership is preserved. -/
theorem mem_sortByDateDesc (x : TransactionView) (l : List TransactionView) :
    x ∈ sortByDateDesc l ↔ x ∈ l := by
  induction l with
  | nil => simp [sortByDateDesc]
  | cons a rest ih =>
      simp only [sortByDateDesc, List.foldr_cons] at *
      rw [mem_insertByDateDesc]
      simp [ih, List.mem_cons]

/-- C1: the spec says the "Calculer et Enregistrer" path persists a new
Transaction row and that `listTransactions` then includes it.  The INSERT
statement of `add_transaction` names nine target columns but its VALUES
clause holds only six placeholders while nine parameters are supplied, so
every call raises before writing and no transaction is ever persisted; shown
concretely on the seeded catalog with Type A and measured weight 250. -/
theorem C1_add_transaction_never_persists :
    add_transaction_placeholders ≠ add_transaction_params ∧
    (∀ (s : Store) (date : String) (ctid : Nat) (color : String)
        (mw gm mg bta pta : ℚ) (cn : Option String),
      add_transaction s date ctid color mw gm mg bta pta cn =
        .error (.storageError
          ("not all arguments converted during string formatting"))) ∧
    calculer_et_enregistrer seededStore typeA 250 "" "2026-10-12 00:00:00" =
      (seededStore,
       .error (.storageError
         ("not all arguments converted during string formatting"))) := by
  refine ⟨by decide, ?_, ?_⟩
  · intro s date ctid color mw gm mg bta pta cn
    simp [add_transaction, paramsMatch, add_transaction_placeholders,
      add_transaction_params]
  · norm_num [calculer_et_enregistrer, computeFill, typeA, add_transaction,
      paramsMatch, add_transaction_placeholders, add_transaction_params]

/-- C2: for measuredWeight at least emptyMass, the fill computation returns
gasMass = measuredWeight minus emptyMass exactly and missingGas =
max(0, fullGasMass minus gasMass); on the scenario type (fullGasMass 400,
emptyMass 200, butane 0.70, propane 0.30) with measured weight 250 it yields
gasMass 50, missingGas 350, butaneToAdd 245 and propaneToAdd 105, whatever
the id, name and color of the type. -/
theorem C2_computeFill_exact (ct : CartridgeType) (mw : ℚ)
    (h : ct.empty_mass ≤ mw) :
    (∃ r : FillResult, computeFill ct mw = .ok r ∧
      r.gas_mass = mw - ct.empty_mass ∧
      r.missing_gas = max 0 (ct.full_gas_mass - r.gas_mass)) ∧
    (∀ (i : Nat) (nm col : String),
      computeFill ⟨i, nm, 400, 200, col, 0.70, 0.30⟩ 250 =
        .ok ⟨50, 350, 245, 105⟩) := by
  constructor
  · have h0 : ¬ (mw - ct.empty_mass < 0) := by linarith
    simp only [computeFill, if_neg h0]
    refine ⟨_, rfl, rfl, ?_⟩
    rcases le_or_lt (ct.full_gas_mass - (mw - ct.empty_mass)) 0 with hle | hlt
    · rw [if_neg (not_lt.mpr hle), max_eq_left hle]
    · rw [if_pos hlt, max_eq_right hlt.le]
  · intro i nm col
    norm_num [computeFill]

/-- Witness for C2 at the scenario input (Type A, measured weight 250). -/
theorem C2_computeFill_exact_witness :
    typeA.empty_mass ≤ 250 ∧
    ((∃ r : FillResult, computeFill typeA 250 = .ok r ∧
      r.gas_mass = 250 - typeA.empty_mass ∧
      r.missing_gas = max 0 (typeA.full_gas_mass - r.gas_mass)) ∧
    (∀ (i : Nat) (nm col : String),
      computeFill ⟨i, nm, 400, 200, col, 0.70, 0.30⟩ 250 =
        .ok ⟨50, 350, 245, 105⟩)) :=
  ⟨by norm_num [typeA], C2_computeFill_exact typeA 250 (by norm_num [typeA])⟩

/-- C3: for measuredWeight below emptyMass the fill operation is rejected
with the validation error, no transaction is created, and the store (both
row counts) is unchanged. -/
theorem C3_below_empty_mass_rejected (s : Store) (ct : CartridgeType) (mw : ℚ)
    (client now : String) (h : mw < ct.empty_mass) :
    computeFill ct mw =
      .error (.validationError
        ("Le poids mesuré est inférieur à la masse du contenant vide.")) ∧
    calculer_et_enregistrer s ct mw client now =
      (s, .error (.validationError
        ("Le poids mesuré est inférieur à la masse du contenant vide."))) ∧
    (calculer_et_enregistrer s ct mw client now).1.transactions.length =
      s.transactions.length ∧
    (calculer_et_enregistrer s ct mw client now).1.cartridge_types.length =
      s.cartridge_types.length := by
  have h0 : mw - ct.empty_mass < 0 := by linarith
  have hcf : computeFill ct mw =
      .error (.validationError
        ("Le poids mesuré est inférieur à la masse du contenant vide.")) := by
    simp only [computeFill, if_pos h0]
  refine ⟨hcf, ?_, ?_, ?_⟩ <;> simp [calculer_et_enregistrer, hcf]

/-- Witness for C3: scenario input measured weight 150 on Type A over the
seeded store. -/
theorem C3_below_empty_mass_rejected_witness :
    (150 : ℚ) < typeA.empty_mass ∧
    (computeFill typeA 150 =
      .error (.validationError
        ("Le poids mesuré est inférieur à la masse du contenant vide.")) ∧
    calculer_et_enregistrer seededStore typeA 150 "" "2026-10-12 00:00:00" =
      (seededStore, .error (.validationError
        ("Le poids mesuré est inférieur à la masse du contenant vide."))) ∧
    (calculer_et_enregistrer seededStore typeA 150 ""
      "2026-10-12 00:00:00").1.transactions.length =
      seededStore.transactions.length ∧
    (calculer_et_enregistrer seededStore typeA 150 ""
      "2026-10-12 00:00:00").1.cartridge_types.length =
      seededStore.cartridge_types.length) :=
  ⟨by norm_num [typeA],
   C3_below_empty_mass_rejected seededStore typeA 150 "" "2026-10-12 00:00:00"
     (by norm_num [typeA])⟩

/-- C4: submitting the add-type form with an empty name is rejected with a
validation error and inserts no cartridge-type row. -/
theorem C4_addType_empty_name_rejected (s : Store) (full_gas_mass empty_mass : ℚ)
    (color : String) (butane propane : ℚ) :
    submit_add_type s ("") full_gas_mass empty_mass color butane propane =
      (s, .error (.validationError
        ("Veuillez entrer un nom pour le type de cartouche."))) ∧
    (submit_add_type s ("") full_gas_mass empty_mass color
      butane propane).1.cartridge_types = s.cartridge_types := by
  constructor <;> simp [submit_add_type]

/-- C5: the seeding operation only runs on an empty catalog, so iterating it
any number of times from an empty catalog leaves exactly five rows, and on a
non-empty catalog it inserts nothing. -/
theorem C5_seed_idempotent (s : Store) (h : s.cartridge_types = []) (n : Nat) :
    ((add_default_cartridge_types)^[n + 1] s).cartridge_types.length = 5 ∧
    ∀ s2 : Store, s2.cartridge_types ≠ [] → add_default_cartridge_types s2 = s2 := by
  have hskip : ∀ s2 : Store, s2.cartridge_types ≠ [] →
      add_default_cartridge_types s2 = s2 := by
    intro s2 h2
    unfold add_default_cartridge_types
    rw [if_neg (fun hl => h2 (List.length_eq_zero.mp hl))]
  have h5 : (add_default_cartridge_types s).cartridge_types.length = 5 := by
    unfold add_default_cartridge_types
    rw [if_pos (by simp [h])]
    simp [default_types, insert_cartridge_type_row, h, List.foldl_cons,
      List.foldl_nil]
  refine ⟨?_, hskip⟩
  induction n with
  | zero => exact h5
  | succ k ih =>
      rw [Function.iterate_succ_apply']
      rw [hskip _ (List.ne_nil_of_length_pos (by rw [ih]; norm_num))]
      exact ih

/-- Witness for C5: two seeding calls on a fresh store leave five rows. -/
theorem C5_seed_idempotent_witness :
    emptyStore.cartridge_types = [] ∧
    (((add_default_cartridge_types)^[2] emptyStore).cartridge_types.length = 5 ∧
    ∀ s2 : Store, s2.cartridge_types ≠ [] → add_default_cartridge_types s2 = s2) :=
  ⟨rfl, C5_seed_idempotent emptyStore rfl 1⟩

/-- C6 counterexample: the seeded color labels are the French "Bleu"/"Rouge",
not the "Blue"/"Red" stated by the claim. -/
theorem C6_counterexample :
    (add_default_cartridge_types emptyStore).cartridge_types.map
      (fun ct => ct.color) ≠ ["Blue", "Red", "Blue", "Red", "Blue"] := by
  simp [add_default_cartridge_types, emptyStore, default_types,
    insert_cartridge_type_row]

/-- C6 (amended): the five rows seeded on an empty catalog carry exactly the
names, masses and ratios of the seed table of the spec, with the color
labels "Bleu" and "Rouge". -/
theorem C6_amended_seed_rows (s : Store) (h : s.cartridge_types = []) :
    (add_default_cartridge_types s).cartridge_types.map
      (fun ct => (ct.name, ct.full_gas_mass, ct.empty_mass, ct.color,
        ct.butane, ct.propane)) =
    [("Type A", 400.0, 200.0, "Bleu", 0.70, 0.30),
     ("Type B", 500.0, 250.0, "Rouge", 0.60, 0.40),
     ("Type C", 450.0, 220.0, "Bleu", 0.70, 0.30),
     ("Type D", 600.0, 300.0, "Rouge", 0.60, 0.40),
     ("Type E", 550.0, 280.0, "Bleu", 0.70, 0.30)] := by
  unfold add_default_cartridge_types
  rw [if_pos (by simp [h])]
  simp [default_types, insert_cartridge_type_row, h, List.foldl_cons,
    List.foldl_nil]

/-- Witness for the amended C6 on the freshly initialised store. -/
theorem C6_amended_seed_rows_witness :
    emptyStore.cartridge_types = [] ∧
    (add_default_cartridge_types emptyStore).cartridge_types.map
      (fun ct => (ct.name, ct.full_gas_mass, ct.empty_mass, ct.color,
        ct.butane, ct.propane)) =
    [("Type A", 400.0, 200.0, "Bleu", 0.70, 0.30),
     ("Type B", 500.0, 250.0, "Rouge", 0.60, 0.40),
     ("Type C", 450.0, 220.0, "Bleu", 0.70, 0.30),
     ("Type D", 600.0, 300.0, "Rouge", 0.60, 0.40),
     ("Type E", 550.0, 280.0, "Bleu", 0.70, 0.30)] :=
  ⟨rfl, C6_amended_seed_rows emptyStore rfl⟩

/-- C7 counterexample: on the seeded store, updating type id 99 and
transaction id 99 (which do not exist) succeeds and returns the store
unchanged — no NotFoundError is raised. -/
theorem C7_counterexample :
    update_cartridge_type seededStore 99 ("X") 1 1 ("Bleu") 0.5 0.5 =
      seededStore ∧
    update_transaction seededStore 99 ("2026-01-01 00:00:00") 1 1 1 1 1 ("c") =
      seededStore := by
  constructor
  · norm_num [update_cartridge_type, seededStore, add_default_cartridge_types,
      emptyStore, default_types, insert_cartridge_type_row]
  · simp [update_transaction, seededStore, add_default_cartridge_types,
      emptyStore, default_types, insert_cartridge_type_row]

/-- C7 (amended): `update_cartridge_type` and `update_transaction` on an id
absent from the store are silent no-ops — they succeed and leave the store
unchanged, raising no error. -/
theorem C7_amended_update_missing_id_noop (s : Store) (id : Nat)
    (hct : ∀ ct ∈ s.cartridge_types, ct.id ≠ id)
    (htr : ∀ t ∈ s.transactions, t.id ≠ id)
    (name : String) (full_gas_mass empty_mass : ℚ) (color : String)
    (butane propane : ℚ) (new_date : String) (nmw ngm nmg nbta npta : ℚ)
    (ncn : String) :
    update_cartridge_type s id name full_gas_mass empty_mass color
      butane propane = s ∧
    update_transaction s id new_date nmw ngm nmg nbta npta ncn = s := by
  constructor
  · simp only [update_cartridge_type]
    rw [map_untouched _ _ (fun ct hm => if_neg (hct ct hm))]
  · simp only [update_transaction]
    rw [map_untouched _ _ (fun t hm => if_neg (htr t hm))]

/-- Witness for the amended C7 at id 42 on the demo store. -/
theorem C7_amended_update_missing_id_noop_witness :
    (∀ ct ∈ demoStore.cartridge_types, ct.id ≠ 42) ∧
    (∀ t ∈ demoStore.transactions, t.id ≠ 42) ∧
    (update_cartridge_type demoStore 42 ("X") 1 1 ("Bleu") 0.5 0.5 =
      demoStore ∧
     update_transaction demoStore 42 ("2026-01-01 00:00:00") 1 2 3 4 5 ("Bob") =
       demoStore) := by
  have h1 : ∀ ct ∈ demoStore.cartridge_types, ct.id ≠ 42 := by
    simp [demoStore, add_default_cartridge_types, emptyStore, default_types,
      insert_cartridge_type_row]
  have h2 : ∀ t ∈ demoStore.transactions, t.id ≠ 42 := by
    simp [demoStore, demoTransaction1, demoTransaction2]
  exact ⟨h1, h2, C7_amended_update_missing_id_noop demoStore 42 h1 h2
    ("X") 1 1 ("Bleu") 0.5 0.5 ("2026-01-01 00:00:00") 1 2 3 4 5 ("Bob")⟩

/-- C8: any successful fill satisfies butaneToAdd + propaneToAdd =
missingGas * (butaneRatio + propaneRatio). -/
theorem C8_added_amounts_sum (ct : CartridgeType) (mw : ℚ)
    (h : ct.empty_mass ≤ mw) :
    ∃ r : FillResult, computeFill ct mw = .ok r ∧
      r.butane_to_add + r.propane_to_add =
        r.missing_gas * (ct.butane + ct.propane) := by
  have h0 : ¬ (mw - ct.empty_mass < 0) := by linarith
  simp only [computeFill, if_neg h0]
  exact ⟨_, rfl, by ring⟩

/-- Witness for C8 on the scenario input. -/
theorem C8_added_amounts_sum_witness :
    typeA.empty_mass ≤ 250 ∧
    ∃ r : FillResult, computeFill typeA 250 = .ok r ∧
      r.butane_to_add + r.propane_to_add =
        r.missing_gas * (typeA.butane + typeA.propane) :=
  ⟨by norm_num [typeA], C8_added_amounts_sum typeA 250 (by norm_num [typeA])⟩

/-- C9: `update_transaction` touches only the editable columns of the row it
addresses: the catalog is untouched, the transaction count and order are
unchanged, every row keeps its id, `cartridge_type_id` and color snapshot,
rows with a different id are unchanged, and the addressed row gets exactly
the new editable field values. -/
theorem C9_update_transaction_frame (s : Store) (tid : Nat) (new_date : String)
    (nmw ngm nmg nbta npta : ℚ) (ncn : String) (i : Nat)
    (hi : i < s.transactions.length)
    (hi2 : i < (update_transaction s tid new_date nmw ngm nmg nbta npta
      ncn).transactions.length) :
    (update_transaction s tid new_date nmw ngm nmg nbta npta ncn).cartridge_types =
      s.cartridge_types ∧
    (update_transaction s tid new_date nmw ngm nmg nbta npta ncn).transactions.length =
      s.transactions.length ∧
    ((update_transaction s tid new_date nmw ngm nmg nbta npta
        ncn).transactions.get ⟨i, hi2⟩).id = (s.transactions.get ⟨i, hi⟩).id ∧
    ((update_transaction s tid new_date nmw ngm nmg nbta npta
        ncn).transactions.get ⟨i, hi2⟩).cartridge_type_id =
      (s.transactions.get ⟨i, hi⟩).cartridge_type_id ∧
    ((update_transaction s tid new_date nmw ngm nmg nbta npta
        ncn).transactions.get ⟨i, hi2⟩).color =
      (s.transactions.get ⟨i, hi⟩).color ∧
    ((s.transactions.get ⟨i, hi⟩).id ≠ tid →
      (update_transaction s tid new_date nmw ngm nmg nbta npta
        ncn).transactions.get ⟨i, hi2⟩ = s.transactions.get ⟨i, hi⟩) ∧
    ((s.transactions.get ⟨i, hi⟩).id = tid →
      (update_transaction s tid new_date nmw ngm nmg nbta npta
        ncn).transactions.get ⟨i, hi2⟩ =
        { s.transactions.get ⟨i, hi⟩ with
          date := new_date
          measured_weight := nmw
          gas_mass := ngm
          missing_gas := nmg
          butane_to_add := nbta
          propane_to_add := npta
          client_name := some ncn }) := by
  have key : (update_transaction s tid new_date nmw ngm nmg nbta npta
      ncn).transactions.get ⟨i, hi2⟩ =
      (fun t => if t.id = tid then
        { t with
          date := new_date
          measured_weight := nmw
          gas_mass := ngm
          missing_gas := nmg
          butane_to_add := nbta
          propane_to_add := npta
          client_name := some ncn }
      else t) (s.transactions.get ⟨i, hi⟩) := by
    simp [update_transaction, List.get_eq_getElem, List.getElem_map]
  refine ⟨rfl, by simp [update_transaction], ?_, ?_, ?_, ?_, ?_⟩
  · simp only [key]
    split <;> rfl
  · simp only [key]
    split <;> rfl
  · simp only [key]
    split <;> rfl
  · intro hne
    simp only [key]
    rw [if_neg hne]
  · intro heq
    simp only [key]
    rw [if_pos heq]

/-- Witness for C9 on the demo store, updating transaction 1 and inspecting
row 0. -/
theorem C9_update_transaction_frame_witness :
    0 < demoStore.transactions.length ∧
    0 < (update_transaction demoStore 1 ("2026-01-01 00:00:00") 1 2 3 4 5
      ("Bob")).transactions.length ∧
    ((update_transaction demoStore 1 ("2026-01-01 00:00:00") 1 2 3 4 5
        ("Bob")).cartridge_types = demoStore.cartridge_types ∧
    (update_transaction demoStore 1 ("2026-01-01 00:00:00") 1 2 3 4 5
        ("Bob")).transactions.length = demoStore.transactions.length ∧
    ((update_transaction demoStore 1 ("2026-01-01 00:00:00") 1 2 3 4 5
        ("Bob")).transactions.get
          ⟨0, by simp [update_transaction, demoStore]⟩).id =
      (demoStore.transactions.get ⟨0, by simp [demoStore]⟩).id ∧
    ((update_transaction demoStore 1 ("2026-01-01 00:00:00") 1 2 3 4 5
        ("Bob")).transactions.get
          ⟨0, by simp [update_transaction, demoStore]⟩).cartridge_type_id =
      (demoStore.transactions.get ⟨0, by simp [demoStore]⟩).cartridge_type_id ∧
    ((update_transaction demoStore 1 ("2026-01-01 00:00:00") 1 2 3 4 5
        ("Bob")).transactions.get
          ⟨0, by simp [update_transaction, demoStore]⟩).color =
      (demoStore.transactions.get ⟨0, by simp [demoStore]⟩).color ∧
    ((demoStore.transactions.get ⟨0, by simp [demoStore]⟩).id ≠ 1 →
      (update_transaction demoStore 1 ("2026-01-01 00:00:00") 1 2 3 4 5
        ("Bob")).transactions.get
          ⟨0, by simp [update_transaction, demoStore]⟩ =
        demoStore.transactions.get ⟨0, by simp [demoStore]⟩) ∧
    ((demoStore.transactions.get ⟨0, by simp [demoStore]⟩).id = 1 →
      (update_transaction demoStore 1 ("2026-01-01 00:00:00") 1 2 3 4 5
        ("Bob")).transactions.get
          ⟨0, by simp [update_transaction, demoStore]⟩ =
        { demoStore.transactions.get ⟨0, by simp [demoStore]⟩ with
          date := "2026-01-01 00:00:00"
          measured_weight := 1
          gas_mass := 2
          missing_gas := 3
          butane_to_add := 4
          propane_to_add := 5
          client_name := some "Bob" })) := by
  refine ⟨by simp [demoStore], by simp [update_transaction, demoStore], ?_⟩
  exact C9_update_transaction_frame demoStore 1 ("2026-01-01 00:00:00") 1 2 3 4
    5 ("Bob") 0 (by simp [demoStore]) (by simp [update_transaction, demoStore])

/-- C10: a transaction whose `cartridge_type_id` matches no catalog row (its
id being unique in the ledger) contributes no row to `get_transactions`: the
inner join silently omits it instead of failing or showing a placeholder. -/
theorem C10_dangling_reference_omitted (s : Store) (t : Transaction)
    (ht : t ∈ s.transactions)
    (hdangling : ∀ ct ∈ s.cartridge_types, ct.id ≠ t.cartridge_type_id)
    (hunique : ∀ u ∈ s.transactions, u.id = t.id → u = t) :
    ∀ v ∈ get_transactions s, v.id ≠ t.id := by
  intro v hv hvid
  have hv2 := (mem_sortByDateDesc v _).mp hv
  rcases List.mem_flatMap.mp hv2 with ⟨u, hu, hvu⟩
  rcases List.mem_map.mp hvu with ⟨ct, hctmem, hveq⟩
  have hctfilter := List.mem_filter.mp hctmem
  have hctid : ct.id = u.cartridge_type_id := by
    simpa using hctfilter.2
  have huid : u.id = t.id := by
    rw [← hvid, ← hveq]
  have hut : u = t := hunique u hu huid
  exact hdangling ct hctfilter.1 (by rw [hctid, hut])

/-- Witness for C10: in the demo store with a dangling transaction (type id
99 absent from the catalog), the transaction listing omits it. -/
theorem C10_dangling_reference_omitted_witness :
    danglingTransaction ∈ demoStoreDangling.transactions ∧
    (∀ ct ∈ demoStoreDangling.cartridge_types,
      ct.id ≠ danglingTransaction.cartridge_type_id) ∧
    (∀ u ∈ demoStoreDangling.transactions,
      u.id = danglingTransaction.id → u = danglingTransaction) ∧
    (∀ v ∈ get_transactions demoStoreDangling,
      v.id ≠ danglingTransaction.id) := by
  have h1 : danglingTransaction ∈ demoStoreDangling.transactions := by
    simp [demoStoreDangling]
  have h2 : ∀ ct ∈ demoStoreDangling.cartridge_types,
      ct.id ≠ danglingTransaction.cartridge_type_id := by
    simp [demoStoreDangling, danglingTransaction, add_default_cartridge_types,
      emptyStore, default_types, insert_cartridge_type_row]
  have h3 : ∀ u ∈ demoStoreDangling.transactions,
      u.id = danglingTransaction.id → u = danglingTransaction := by
    simp only [demoStoreDangling, List.mem_cons, List.not_mem_nil, or_false]
    rintro u (rfl | rfl) hid
    · exact absurd hid (by norm_num [demoTransaction1, danglingTransaction])
    · rfl
  exact ⟨h1, h2, h3,
    C10_dangling_reference_omitted demoStoreDangling danglingTransaction h1 h2 h3⟩

end Rendonnee
